import Mathlib

/-!
Verification development for the visible core of the qwenode/tailscale
repository: the Local API server (`ipn/localapi`, visible as source part 003)
and the Windows OS DNS configurator (`net/dns/manager_windows.go`), together
with the DNS policy compiler contract exercised by the manager test
(source part 004).

Shallow embedding conventions:
- Go HTTP handlers become pure Lean functions from a handler record, an
  environment of abstract collaborator behaviours, a mutable world and a
  request, to a response paired with the updated world.
- Backend method invocations are recorded in an explicit call list so that
  "the handler body was never invoked" is observable.
- Machine integers of the Go code never overflow in the modelled paths, so
  metric values are plain `Int`.
-/

namespace TS

/-! ## Client-metric registry (claims about /upload-client-metrics)

The `util/clientmetric` package is not among the visible sources; only its
callers are.  Per the spec it keeps one process-wide table of named metrics,
where a name registered by code ("pre-published") may not be re-registered by
the upload API. -/

/-- Metric kind, `{counter, gauge}` (spec section 3, Metric). -/
inductive MKind where
  | counter
  | gauge
  deriving DecidableEq

/-- One entry of the JSON array accepted by POST /upload-client-metrics,
mirroring `clientMetricJSON` in `Handler.serveUploadClientMetrics`. -/
structure CMetricJSON where
  name : String
  type : String
  value : Int
  deriving DecidableEq

/-- Modelled from the spec: the process-wide client-metric registry of
`util/clientmetric` (not among the visible sources), split by registration
channel as section 4.I requires: `published` holds code-created metrics (the
ones `clientmetric.HasPublished` reports), `uploaded` holds the metrics the
localapi upload handler created, i.e. the handler's package-global `metrics`
map.  Each entry carries its kind and current value. -/
structure MetricsState where
  published : List (String × MKind × Int)
  uploaded : List (String × MKind × Int)
  deriving DecidableEq

/-- Modelled from the spec: `clientmetric.Metric.Add` — additive update of the
named metric (section 4.I `add(handle, delta)`); other entries untouched. -/
def addTo (l : List (String × MKind × Int)) (name : String) (delta : Int) :
    List (String × MKind × Int) :=
  l.map fun p => if p.1 = name then (p.1, p.2.1, p.2.2 + delta) else p

/-- The entry-processing loop of `Handler.serveUploadClientMetrics`, line by
line: an entry whose name is already in the upload-channel map is added to;
otherwise a collision with a pre-published (code-created) name stops the loop
with an error, a known type registers-then-adds, and an unknown type stops the
loop with an error.  The state accumulated by earlier iterations is global in
the Go code and therefore survives an error return. -/
def uploadLoop : MetricsState → List CMetricJSON → Option String × MetricsState
  | st, [] => (none, st)
  | st, m :: rest =>
    match (st.uploaded.lookup m.name : Option (MKind × Int)) with
    | some _ => uploadLoop { st with uploaded := addTo st.uploaded m.name m.value } rest
    | none =>
      if (st.published.lookup m.name).isSome then
        (some ("Already have a metric named " ++ m.name), st)
      else if m.type = "counter" then
        uploadLoop { st with uploaded := st.uploaded ++ [(m.name, MKind.counter, m.value)] } rest
      else if m.type = "gauge" then
        uploadLoop { st with uploaded := st.uploaded ++ [(m.name, MKind.gauge, m.value)] } rest
      else
        (some ("Unknown metric type " ++ m.type), st)

/-- Whether a single upload entry is acceptable in the given registry state:
either its name is already upload-registered (it will be added to), or it is
neither pre-published nor of unknown type. -/
def validEntry (st : MetricsState) (m : CMetricJSON) : Bool :=
  (st.uploaded.lookup m.name).isSome ||
    (!(st.published.lookup m.name).isSome && (m.type = "counter" || m.type = "gauge"))

/-- The effect of one acceptable upload entry on the registry. -/
def applyEntry (st : MetricsState) (m : CMetricJSON) : MetricsState :=
  match (st.uploaded.lookup m.name : Option (MKind × Int)) with
  | some _ => { st with uploaded := addTo st.uploaded m.name m.value }
  | none =>
    if m.type = "counter" then { st with uploaded := st.uploaded ++ [(m.name, MKind.counter, m.value)] }
    else { st with uploaded := st.uploaded ++ [(m.name, MKind.gauge, m.value)] }

/-- Sequential validity of a whole upload array: every entry is acceptable in
the state produced by applying the entries before it. -/
def seqValid : MetricsState → List CMetricJSON → Bool
  | _, [] => true
  | st, m :: rest => validEntry st m && seqValid (applyEntry st m) rest

theorem uploadLoop_cons_valid (st : MetricsState) (m : CMetricJSON)
    (rest : List CMetricJSON) (hv : validEntry st m = true) :
    uploadLoop st (m :: rest) = uploadLoop (applyEntry st m) rest := by
  unfold validEntry at hv
  cases hup : (st.uploaded.lookup m.name : Option (MKind × Int)) with
  | some v =>
    conv_lhs => simp only [uploadLoop, hup]
    simp only [applyEntry, hup]
  | none =>
    rw [hup] at hv
    by_cases hp : (st.published.lookup m.name).isSome = true
    · simp [hp] at hv
    · by_cases hc : m.type = "counter"
      · conv_lhs => simp only [uploadLoop, hup]
        simp only [applyEntry, hup]
        simp [hp, hc]
      · by_cases hg : m.type = "gauge"
        · conv_lhs => simp only [uploadLoop, hup]
          simp only [applyEntry, hup]
          simp [hp, hc, hg]
        · simp [hp, hc, hg] at hv

theorem uploadLoop_cons_invalid (st : MetricsState) (m : CMetricJSON)
    (rest : List CMetricJSON) (hv : validEntry st m = false) :
    (uploadLoop st (m :: rest)).1.isSome = true ∧
      (uploadLoop st (m :: rest)).2 = st := by
  unfold validEntry at hv
  cases hup : (st.uploaded.lookup m.name : Option (MKind × Int)) with
  | some v => rw [hup] at hv; simp at hv
  | none =>
    rw [hup] at hv
    by_cases hp : (st.published.lookup m.name).isSome = true
    · simp [uploadLoop, hup, hp]
    · by_cases hc : m.type = "counter"
      · simp [hp, hc] at hv
      · by_cases hg : m.type = "gauge"
        · simp [hp, hg] at hv
        · simp [uploadLoop, hup, hp, hc, hg]

theorem uploadLoop_spec (st : MetricsState) (entries : List CMetricJSON) :
    (seqValid st entries = true ∧
       uploadLoop st entries = (none, entries.foldl applyEntry st)) ∨
    (∃ pre bad rest, entries = pre ++ bad :: rest ∧
       seqValid st pre = true ∧
       validEntry (pre.foldl applyEntry st) bad = false ∧
       (uploadLoop st entries).1.isSome = true ∧
       (uploadLoop st entries).2 = pre.foldl applyEntry st) := by
  induction entries generalizing st with
  | nil => exact Or.inl ⟨rfl, rfl⟩
  | cons m rest ih =>
    by_cases hv : validEntry st m = true
    · rcases ih (applyEntry st m) with ⟨hsv, heq⟩ | ⟨pre, bad, rest', heq, hsv, hbad, h1, h2⟩
      · left
        constructor
        · simp [seqValid, hv, hsv]
        · rw [uploadLoop_cons_valid st m rest hv, heq, List.foldl_cons]
      · right
        refine ⟨m :: pre, bad, rest', by simp [heq], ?_, ?_, ?_, ?_⟩
        · simp [seqValid, hv, hsv]
        · simpa [List.foldl_cons] using hbad
        · rw [uploadLoop_cons_valid st m rest hv]
          exact h1
        · rw [uploadLoop_cons_valid st m rest hv, h2, List.foldl_cons]
    · have hv' : validEntry st m = false := by
        revert hv
        cases validEntry st m <;> simp
      right
      refine ⟨[], m, rest, rfl, rfl, hv', ?_, ?_⟩
      · exact (uploadLoop_cons_invalid st m rest hv').1
      · exact (uploadLoop_cons_invalid st m rest hv').2

/-! ## Preferences

The `ipn` package (Prefs, MaskedPrefs) and the backend `EditPrefs` are not
among the visible sources; they are modelled from the spec (section 3
"Preferences", section 4.F). -/

/-- Modelled from the spec: an opaque preferences record (section 3); three
representative fields stand in for the full field set. -/
structure Prefs where
  ControlURL : String := ""
  WantRunning : Bool := false
  ShieldsUp : Bool := false
  deriving DecidableEq

/-- Modelled from the spec: `MaskedPrefs` — a patch carrying only the fields
to be changed; `none` means the field is not mentioned and stays untouched. -/
structure MaskedPrefs where
  ControlURL : Option String := none
  WantRunning : Option Bool := none
  ShieldsUp : Option Bool := none
  deriving DecidableEq

/-- Modelled from the spec: applying a masked patch to a preferences value,
field by field (glossary "MaskedPrefs"). -/
def applyMask (p : Prefs) (mp : MaskedPrefs) : Prefs where
  ControlURL := mp.ControlURL.getD p.ControlURL
  WantRunning := mp.WantRunning.getD p.WantRunning
  ShieldsUp := mp.ShieldsUp.getD p.ShieldsUp

/-! ## Requests, responses and the abstract backend environment -/

/-- A UTC wall-clock instant, enough to render Go's
`time.Now().UTC().Format("20060102150405Z")`. -/
structure UTCTime where
  year : Nat := 2022
  month : Nat := 1
  day : Nat := 1
  hour : Nat := 0
  minute : Nat := 0
  second : Nat := 0

/-- Backend method invocations a handler performs, recorded so that "the
handler body was never invoked / no backend method was called" is
observable. -/
inductive Call where
  | netMap
  | doNoiseRequest
  | whois (addr : String)
  | peerCaps (addr : String)
  | status
  | statusWithoutPeers
  | startLoginInteractive
  | logoutSync
  | editPrefsCall
  | prefsGet
  | checkPrefsCall
  | waitingFiles
  | openFile (name : String)
  | deleteFile (name : String)
  | fileTargets
  | peerAPIProxy (stableID name : String)
  | setDNSBackend (name value : String)
  | derpMap
  | setExpirySooner (t : Int)
  | ping (ip : String) (ptype : String)
  | checkIPForwarding
  | debugRebind
  | debugReSTUN
  | userDial (addr : String)
  deriving DecidableEq

/-- Response bodies, one constructor per distinct payload the handlers
write. -/
inductive Body where
  | empty
  | text (s : String)
  | jsonError (e : String)
  | jsonObj
  | prefsJSON (p : Prefs)
  | statusJSON (withPeers : Bool)
  | whoisJSON (addr : String)
  | filesJSON
  | fileTargetsJSON
  | derpMapJSON
  | checkIPForwardingJSON (warning : String)
  | checkPrefsJSON (err : Option String)
  | pingJSON (ip : String) (ptype : String)
  | metricsDump
  | goroutinesDump
  | profileDump
  | fileContent (name : String)
  | idTokenRelay (status : Nat)
  | filePutRelay
  | certContent
  deriving DecidableEq

/-- An HTTP response as the embedding observes it: status code, payload, the
backend calls made while producing it, log lines emitted, and whether the
connection was hijacked into a byte pipe with the 101 upgrade headers set. -/
structure Response where
  status : Nat
  body : Body := Body.empty
  calls : List Call := []
  logs : List String := []
  hijacked : Bool := false
  upgradeHeaders : Bool := false
  deriving DecidableEq

/-- `http.Error(w, msg, code)`: plain-text error body (Go appends a
newline). -/
def httpError (code : Nat) (msg : String) : Response where
  status := code
  body := Body.text (msg ++ "\n")

/-- The localapi `Handler` struct fields that matter to the visible code
paths. -/
structure Handler where
  RequiredPassword : String := ""
  PermitRead : Bool := false
  PermitWrite : Bool := false
  PermitCert : Bool := false
  backendLogID : String := ""

/-- An incoming HTTP request.  Form values and headers are association
lists; a typed body field holds the result of decoding the JSON body for the
handlers that read one (`none` = malformed JSON). -/
structure Request where
  path : String
  method : String := "GET"
  basicAuthPassword : Option String := none
  params : List (String × String) := []
  headers : List (String × String) := []
  bodyMaskedPrefs : Option MaskedPrefs := none
  bodyPrefs : Option Prefs := none
  bodyClientMetrics : Option (List CMetricJSON) := none

/-- `r.FormValue(k)`: empty string when the parameter is absent. -/
def formValue (r : Request) (k : String) : String :=
  (r.params.lookup k).getD ""

/-- `r.Header.Get(k)`: empty string when the header is absent. -/
def headerGet (r : Request) (k : String) : String :=
  (r.headers.lookup k).getD ""

/-- The mutable state the visible handlers touch: the backend-owned
preferences and the process-wide client-metric registry. -/
structure World where
  prefs : Prefs := {}
  metrics : MetricsState := ⟨[], []⟩
  deriving DecidableEq

/-- Abstract behaviour of the collaborators the handlers call into (standard
library parsers, the node backend, the dialer).  Each field stands for one
out-of-scope operation; handlers consult it instead of performing I/O. -/
structure Env where
  isValidAddrPort : String → Bool := fun _ => true
  isValidAddr : String → Bool := fun _ => true
  whoisFound : String → Bool := fun _ => true
  prefsValid : Prefs → Bool := fun _ => true
  pingErr : String → String → Option String := fun _ _ => none
  dialErr : String → Option String := fun _ => none
  http1 : Bool := true
  hasNetMap : Bool := true
  noiseStatus : Nat := 200
  now : UTCTime := {}
  randByte : Nat → Nat := fun _ => 0
  checkIPForwardingErr : Option String := none
  logoutErr : Option String := none
  setDNSErr : Option String := none
  setExpiryErr : Option String := none
  debugRebindErr : Option String := none
  debugReSTUNErr : Option String := none
  fileTargetsErr : Option String := none
  waitingFilesErr : Option String := none
  deleteFileErr : Option String := none
  openFileErr : Option String := none
  fileTargetIDs : List String := []
  filePutStatus : Nat := 200
  profileLinked : Bool := true
  unescapeOk : Bool := true

/-! ## Small string helpers mirroring Go standard-library calls -/

/-- `strings.Contains(s, sub)`. -/
def strContains (s sub : String) : Bool :=
  decide (sub.data <:+: s.data)

/-- `strings.HasPrefix(s, pre)`. -/
def strHasPrefix (s pre : String) : Bool :=
  decide (pre.data <+: s.data)

/-- `strings.TrimPrefix(s, pre)`. -/
def dropPrefixStr (s pre : String) : String :=
  if strHasPrefix s pre then s.drop pre.length else s

/-- `strings.Cut(s, "/")`: the part before the first slash and the rest. -/
def cutSlash (s : String) : Option (String × String) :=
  match s.splitOn "/" with
  | [] => none
  | [_] => none
  | x :: rest => some (x, String.intercalate "/" rest)

/-- `strings.Join(l, ",")`. -/
def joinComma (l : List String) : String :=
  String.intercalate "," l

/-- `net.JoinHostPort`: brackets an IPv6-looking host. -/
def joinHostPort (host port : String) : String :=
  if strContains host ":" then "[" ++ host ++ "]:" ++ port else host ++ ":" ++ port

/-- `strconv.ParseBool`. -/
def parseBool (s : String) : Option Bool :=
  if s = "1" ∨ s = "t" ∨ s = "T" ∨ s = "TRUE" ∨ s = "true" ∨ s = "True" then some true
  else if s = "0" ∨ s = "f" ∨ s = "F" ∨ s = "FALSE" ∨ s = "false" ∨ s = "False" then some false
  else none

/-- `defBool` from the localapi package: parse, falling back to a default on
empty or malformed input. -/
def defBool (a : String) (d : Bool) : Bool :=
  if a = "" then d
  else match parseBool a with
    | none => d
    | some v => v

/-- Lowercase hex digit, as `encoding/hex` writes it. -/
def hexDigitChar (n : Nat) : Char :=
  if n < 10 then Char.ofNat (48 + n) else Char.ofNat (87 + n)

/-- One byte as two lowercase hex digits. -/
def byteHex (b : Nat) : String :=
  String.mk [hexDigitChar (b / 16 % 16), hexDigitChar (b % 16)]

/-- Zero-left-pad a decimal rendering to the given width. -/
def padZero (w n : Nat) : String :=
  String.mk (List.replicate (w - (toString n).length) (Char.ofNat 48)) ++ toString n

/-- Go's `t.Format("20060102150405Z")` on a UTC instant. -/
def formatBugTime (t : UTCTime) : String :=
  padZero 4 t.year ++ padZero 2 t.month ++ padZero 2 t.day ++
    padZero 2 t.hour ++ padZero 2 t.minute ++ padZero 2 t.second ++ "Z"

/-- `randHex(n)` of the localapi package hex-encodes `n` random BYTES, so it
returns `2*n` hex digits; the random source is the environment's byte
oracle. -/
def randHexN (env : Env) (n : Nat) : String :=
  String.join ((List.range n).map fun i => byteHex (env.randByte i % 256))

/-! ## Local API handlers (`Handler.serve…` of source part 003) -/

/-- Modelled from the spec: backend prefs validation shared by `check_prefs`
and `edit_prefs` (section 4.F); `ipnlocal` is not among the visible
sources. -/
def checkPrefsSpec (env : Env) (p : Prefs) : Option String :=
  if env.prefsValid p then none else some "invalid prefs"

/-- Modelled from the spec: backend `edit_prefs` — an atomic masked patch; a
patch that fails validation leaves the prior prefs untouched (section 3
"Preferences", section 4.F). -/
def editPrefs (env : Env) (p : Prefs) (mp : MaskedPrefs) : Except String Prefs :=
  match checkPrefsSpec env (applyMask p mp) with
  | some e => Except.error e
  | none => Except.ok (applyMask p mp)

/-- `Handler.serveIDToken`. -/
def serveIDToken (h : Handler) (env : Env) (w : World) (r : Request) : Response × World :=
  if !h.PermitWrite then (httpError 403 "id-token access denied", w)
  else if !env.hasNetMap then
    ({ httpError 503 "no netmap" with calls := [Call.netMap] }, w)
  else
    let aud := (formValue r "aud").trim
    if aud.length = 0 then ({ httpError 400 "no audience requested" with calls := [Call.netMap] }, w)
    else ({ status := env.noiseStatus, body := Body.idTokenRelay env.noiseStatus,
            calls := [Call.netMap, Call.doNoiseRequest] }, w)

/-- The `BUG-<logID>-<UTC>-<hex>` log marker `Handler.serveBugReport`
builds. -/
def bugMarker (h : Handler) (env : Env) : String :=
  "BUG-" ++ h.backendLogID ++ "-" ++ formatBugTime env.now ++ "-" ++ randHexN env 8

/-- `Handler.serveBugReport`. -/
def serveBugReport (h : Handler) (env : Env) (w : World) (r : Request) : Response × World :=
  if !h.PermitRead then (httpError 403 "bugreport access denied", w)
  else
    let marker := bugMarker h env
    let note := formValue r "note"
    ({ status := 200, body := Body.text (marker ++ "\n"),
       logs := ("user bugreport: " ++ marker) ::
         (if note.length > 0 then ["user bugreport note: " ++ note] else []) }, w)

/-- `Handler.serveWhoIs`. -/
def serveWhoIs (h : Handler) (env : Env) (w : World) (r : Request) : Response × World :=
  if !h.PermitRead then (httpError 403 "whois access denied", w)
  else
    let v := formValue r "addr"
    if v = "" then (httpError 400 "missing \x27addr\x27 parameter", w)
    else if !env.isValidAddrPort v then (httpError 400 "invalid \x27addr\x27 parameter", w)
    else if !env.whoisFound v then
      ({ httpError 404 "no match for IP:port" with calls := [Call.whois v] }, w)
    else
      ({ status := 200, body := Body.whoisJSON v,
         calls := [Call.whois v, Call.peerCaps v] }, w)

/-- `Handler.serveGoroutines`. -/
def serveGoroutines (h : Handler) (_env : Env) (w : World) (_r : Request) : Response × World :=
  if !h.PermitWrite then (httpError 403 "goroutine dump access denied", w)
  else ({ status := 200, body := Body.goroutinesDump }, w)

/-- `Handler.serveMetrics`. -/
def serveMetrics (h : Handler) (_env : Env) (w : World) (_r : Request) : Response × World :=
  if !h.PermitWrite then (httpError 403 "metric access denied", w)
  else ({ status := 200, body := Body.metricsDump }, w)

/-- `Handler.serveDebug`. -/
def serveDebug (h : Handler) (env : Env) (w : World) (r : Request) : Response × World :=
  if !h.PermitWrite then (httpError 403 "debug access denied", w)
  else if r.method ≠ "POST" then (httpError 405 "POST required", w)
  else
    let action := formValue r "action"
    if action = "rebind" then
      match env.debugRebindErr with
      | some e => ({ httpError 400 e with calls := [Call.debugRebind] }, w)
      | none => ({ status := 200, body := Body.text "done\n", calls := [Call.debugRebind] }, w)
    else if action = "restun" then
      match env.debugReSTUNErr with
      | some e => ({ httpError 400 e with calls := [Call.debugReSTUN] }, w)
      | none => ({ status := 200, body := Body.text "done\n", calls := [Call.debugReSTUN] }, w)
    else if action = "" then (httpError 400 "missing parameter \x27action\x27", w)
    else (httpError 400 ("unknown action \"" ++ action ++ "\""), w)

/-- `Handler.serveProfile`. -/
def serveProfile (h : Handler) (env : Env) (w : World) (_r : Request) : Response × World :=
  if !h.PermitWrite then (httpError 403 "profile access denied", w)
  else if !env.profileLinked then (httpError 503 "not implemented on this platform", w)
  else ({ status := 200, body := Body.profileDump }, w)

/-- `Handler.serveCheckIPForwarding`. -/
def serveCheckIPForwarding (h : Handler) (env : Env) (w : World) (_r : Request) : Response × World :=
  if !h.PermitRead then (httpError 403 "IP forwarding check access denied", w)
  else
    ({ status := 200,
       body := Body.checkIPForwardingJSON (env.checkIPForwardingErr.getD ""),
       calls := [Call.checkIPForwarding] }, w)

/-- `Handler.serveStatus`. -/
def serveStatus (h : Handler) (_env : Env) (w : World) (r : Request) : Response × World :=
  if !h.PermitRead then (httpError 403 "status access denied", w)
  else if defBool (formValue r "peers") true then
    ({ status := 200, body := Body.statusJSON true, calls := [Call.status] }, w)
  else
    ({ status := 200, body := Body.statusJSON false, calls := [Call.statusWithoutPeers] }, w)

/-- `Handler.serveLoginInteractive`. -/
def serveLoginInteractive (h : Handler) (_env : Env) (w : World) (r : Request) : Response × World :=
  if !h.PermitWrite then (httpError 403 "login access denied", w)
  else if r.method ≠ "POST" then (httpError 400 "want POST", w)
  else ({ status := 204, calls := [Call.startLoginInteractive] }, w)

/-- `Handler.serveLogout`. -/
def serveLogout (h : Handler) (env : Env) (w : World) (r : Request) : Response × World :=
  if !h.PermitWrite then (httpError 403 "logout access denied", w)
  else if r.method ≠ "POST" then (httpError 400 "want POST", w)
  else
    match env.logoutErr with
    | none => ({ status := 204, calls := [Call.logoutSync] }, w)
    | some e => ({ httpError 500 e with calls := [Call.logoutSync] }, w)

/-- `Handler.servePrefs`: GET/HEAD return the prefs; PATCH applies a masked
patch through the backend; everything else is method-not-allowed. -/
def servePrefs (h : Handler) (env : Env) (w : World) (r : Request) : Response × World :=
  if !h.PermitRead then (httpError 403 "prefs access denied", w)
  else if r.method = "PATCH" then
    if !h.PermitWrite then (httpError 403 "prefs write access denied", w)
    else
      match r.bodyMaskedPrefs with
      | none => (httpError 400 "invalid JSON body", w)
      | some mp =>
        match editPrefs env w.prefs mp with
        | Except.error e =>
          ({ status := 400, body := Body.jsonError e, calls := [Call.editPrefsCall] }, w)
        | Except.ok p =>
          ({ status := 200, body := Body.prefsJSON p, calls := [Call.editPrefsCall] },
           { w with prefs := p })
  else if r.method = "GET" ∨ r.method = "HEAD" then
    ({ status := 200, body := Body.prefsJSON w.prefs, calls := [Call.prefsGet] }, w)
  else (httpError 405 "unsupported method", w)

/-- `Handler.serveCheckPrefs`. -/
def serveCheckPrefs (h : Handler) (env : Env) (w : World) (r : Request) : Response × World :=
  if !h.PermitWrite then (httpError 403 "checkprefs access denied", w)
  else if r.method ≠ "POST" then (httpError 405 "unsupported method", w)
  else
    match r.bodyPrefs with
    | none => (httpError 400 "invalid JSON body", w)
    | some p =>
      ({ status := 200, body := Body.checkPrefsJSON (checkPrefsSpec env p),
         calls := [Call.checkPrefsCall] }, w)

/-- `Handler.serveFiles`; the path is handed over by the router.  URL
unescaping of the file name is abstracted by the environment's
`unescapeOk` bit, the unescaped name by the raw suffix. -/
def serveFiles (h : Handler) (env : Env) (w : World) (r : Request) (path : String) :
    Response × World :=
  if !h.PermitWrite then (httpError 403 "file access denied", w)
  else
    let suffix := dropPrefixStr path "/localapi/v0/files/"
    if suffix = "" then
      if r.method ≠ "GET" then (httpError 400 "want GET to list files", w)
      else
        match env.waitingFilesErr with
        | some e => ({ httpError 500 e with calls := [Call.waitingFiles] }, w)
        | none => ({ status := 200, body := Body.filesJSON, calls := [Call.waitingFiles] }, w)
    else if !env.unescapeOk then (httpError 400 "bad filename", w)
    else if r.method = "DELETE" then
      match env.deleteFileErr with
      | some e => ({ httpError 500 e with calls := [Call.deleteFile suffix] }, w)
      | none => ({ status := 204, calls := [Call.deleteFile suffix] }, w)
    else
      match env.openFileErr with
      | some e => ({ httpError 500 e with calls := [Call.openFile suffix] }, w)
      | none => ({ status := 200, body := Body.fileContent suffix,
                   calls := [Call.openFile suffix] }, w)

/-- `Handler.serveFileTargets`. -/
def serveFileTargets (h : Handler) (env : Env) (w : World) (r : Request) : Response × World :=
  if !h.PermitRead then (httpError 403 "access denied", w)
  else if r.method ≠ "GET" then (httpError 400 "want GET to list targets", w)
  else
    match env.fileTargetsErr with
    | some e => ({ status := 500, body := Body.jsonError e, calls := [Call.fileTargets] }, w)
    | none => ({ status := 200, body := Body.fileTargetsJSON, calls := [Call.fileTargets] }, w)

/-- `Handler.serveFilePut`; the path is handed over by the router. -/
def serveFilePut (h : Handler) (env : Env) (w : World) (r : Request) (path : String) :
    Response × World :=
  if !h.PermitWrite then (httpError 403 "file access denied", w)
  else if r.method ≠ "PUT" then (httpError 400 "want PUT to put file", w)
  else
    match env.fileTargetsErr with
    | some e => ({ httpError 500 e with calls := [Call.fileTargets] }, w)
    | none =>
      let upath := dropPrefixStr path "/localapi/v0/file-put/"
      match cutSlash upath with
      | none => ({ httpError 400 "bogus URL" with calls := [Call.fileTargets] }, w)
      | some (stableID, filename) =>
        if !env.fileTargetIDs.contains stableID then
          ({ httpError 404 "node not found" with calls := [Call.fileTargets] }, w)
        else
          ({ status := env.filePutStatus, body := Body.filePutRelay,
             calls := [Call.fileTargets, Call.peerAPIProxy stableID filename] }, w)

/-- `Handler.serveSetDNS` (the `/set-dns` TXT-record publication, not the OS
configurator). -/
def serveSetDNS (h : Handler) (env : Env) (w : World) (r : Request) : Response × World :=
  if !h.PermitWrite then (httpError 403 "access denied", w)
  else if r.method ≠ "POST" then (httpError 400 "want POST", w)
  else
    let name := formValue r "name"
    let value := formValue r "value"
    match env.setDNSErr with
    | some e => ({ status := 500, body := Body.jsonError e,
                   calls := [Call.setDNSBackend name value] }, w)
    | none => ({ status := 200, body := Body.jsonObj,
                 calls := [Call.setDNSBackend name value] }, w)

/-- `Handler.serveDERPMap`. -/
def serveDERPMap (_h : Handler) (_env : Env) (w : World) (r : Request) : Response × World :=
  if r.method ≠ "GET" then (httpError 400 "want GET", w)
  else ({ status := 200, body := Body.derpMapJSON, calls := [Call.derpMap] }, w)

/-- `Handler.serveSetExpirySooner`. -/
def serveSetExpirySooner (_h : Handler) (env : Env) (w : World) (r : Request) : Response × World :=
  if r.method ≠ "POST" then (httpError 405 "POST required", w)
  else
    let v := formValue r "expiry"
    if v = "" then (httpError 400 "missing \x27expiry\x27 parameter, a unix timestamp", w)
    else
      match v.toInt? with
      | none => (httpError 400 "can\x27t parse expiry time, expects a unix timestamp", w)
      | some n =>
        match env.setExpiryErr with
        | some e => ({ httpError 400 e with calls := [Call.setExpirySooner n] }, w)
        | none => ({ status := 200, body := Body.text "done\n",
                     calls := [Call.setExpirySooner n] }, w)

/-- `Handler.servePing`, including the duplicated `ipStr == ""` guard that the
source re-tests where it evidently meant to test `pingTypeStr`. -/
def servePing (_h : Handler) (env : Env) (w : World) (r : Request) : Response × World :=
  if r.method ≠ "POST" then (httpError 400 "want POST", w)
  else
    let ipStr := formValue r "ip"
    if ipStr = "" then (httpError 400 "missing \x27ip\x27 parameter", w)
    else if !env.isValidAddr ipStr then (httpError 400 "invalid IP", w)
    else
      let pingTypeStr := formValue r "type"
      if ipStr = "" then (httpError 400 "missing \x27type\x27 parameter", w)
      else
        match env.pingErr ipStr pingTypeStr with
        | some e => ({ status := 500, body := Body.jsonError e,
                       calls := [Call.ping ipStr pingTypeStr] }, w)
        | none => ({ status := 200, body := Body.pingJSON ipStr pingTypeStr,
                     calls := [Call.ping ipStr pingTypeStr] }, w)

/-- `Handler.serveDial`: checks the upgrade token, the dial headers and the
hijackability, dials through the backend, then answers 101 and becomes a byte
pipe. -/
def serveDial (_h : Handler) (env : Env) (w : World) (r : Request) : Response × World :=
  if r.method ≠ "POST" then (httpError 405 "POST required", w)
  else if !(strContains (headerGet r "Connection") "upgrade") ∨
      headerGet r "Upgrade" ≠ "ts-dial" then
    (httpError 400 "bad ts-dial upgrade", w)
  else
    let hostStr := headerGet r "Dial-Host"
    let portStr := headerGet r "Dial-Port"
    if hostStr = "" ∨ portStr = "" then
      (httpError 400 "missing Dial-Host or Dial-Port header", w)
    else if !env.http1 then (httpError 400 "make request over HTTP/1", w)
    else
      let addr := joinHostPort hostStr portStr
      match env.dialErr addr with
      | some e => ({ httpError 502 ("dial failure: " ++ e) with calls := [Call.userDial addr] }, w)
      | none => ({ status := 101, calls := [Call.userDial addr],
                   hijacked := true, upgradeHeaders := true }, w)

/-- `Handler.serveUploadClientMetrics`: decode the array, then run the
registration loop; the registry mutations of earlier iterations survive an
error return because the registry is process-global. -/
def serveUploadClientMetrics (_h : Handler) (_env : Env) (w : World) (r : Request) :
    Response × World :=
  if r.method ≠ "POST" then (httpError 405 "unsupported method", w)
  else
    match r.bodyClientMetrics with
    | none => (httpError 400 "invalid JSON body", w)
    | some entries =>
      match uploadLoop w.metrics entries with
      | (some e, st) => (httpError 400 e, { w with metrics := st })
      | (none, st) => ({ status := 200, body := Body.jsonObj }, { w with metrics := st })

/-- Modelled from the spec: the certificate-fetch handler reached through the
`/cert/` prefix route (its source file is not among the visible ones); per
section 4.B, `cert` capability is required only by certificate-fetch paths. -/
def serveCert (h : Handler) (_env : Env) (w : World) (_r : Request) : Response × World :=
  if !h.PermitCert then (httpError 403 "cert access denied", w)
  else ({ status := 200, body := Body.certContent }, w)

/-- The routing body of `Handler.ServeHTTP` after the version header and the
password gate: three prefix families, then exact paths. -/
def dispatch (path : String) (h : Handler) (env : Env) (w : World) (r : Request) :
    Response × World :=
  if strHasPrefix path "/localapi/v0/files/" then serveFiles h env w r path
  else if strHasPrefix path "/localapi/v0/file-put/" then serveFilePut h env w r path
  else if strHasPrefix path "/localapi/v0/cert/" then serveCert h env w r
  else if path = "/localapi/v0/whois" then serveWhoIs h env w r
  else if path = "/localapi/v0/goroutines" then serveGoroutines h env w r
  else if path = "/localapi/v0/profile" then serveProfile h env w r
  else if path = "/localapi/v0/status" then serveStatus h env w r
  else if path = "/localapi/v0/logout" then serveLogout h env w r
  else if path = "/localapi/v0/login-interactive" then serveLoginInteractive h env w r
  else if path = "/localapi/v0/prefs" then servePrefs h env w r
  else if path = "/localapi/v0/ping" then servePing h env w r
  else if path = "/localapi/v0/check-prefs" then serveCheckPrefs h env w r
  else if path = "/localapi/v0/check-ip-forwarding" then serveCheckIPForwarding h env w r
  else if path = "/localapi/v0/bugreport" then serveBugReport h env w r
  else if path = "/localapi/v0/file-targets" then serveFileTargets h env w r
  else if path = "/localapi/v0/set-dns" then serveSetDNS h env w r
  else if path = "/localapi/v0/derpmap" then serveDERPMap h env w r
  else if path = "/localapi/v0/metrics" then serveMetrics h env w r
  else if path = "/localapi/v0/debug" then serveDebug h env w r
  else if path = "/localapi/v0/set-expiry-sooner" then serveSetExpirySooner h env w r
  else if path = "/localapi/v0/dial" then serveDial h env w r
  else if path = "/localapi/v0/id-token" then serveIDToken h env w r
  else if path = "/localapi/v0/upload-client-metrics" then serveUploadClientMetrics h env w r
  else if path = "/" then ({ status := 200, body := Body.text "tailscaled\n" }, w)
  else (httpError 404 "404 not found", w)

/-- `Handler.ServeHTTP`: the basic-auth password gate runs before any
routing; then the request is dispatched on its path. -/
def ServeHTTP (h : Handler) (env : Env) (w : World) (r : Request) : Response × World :=
  if h.RequiredPassword = "" then dispatch r.path h env w r
  else
    match r.basicAuthPassword with
    | none => (httpError 401 "auth required", w)
    | some pass =>
      if pass = h.RequiredPassword then dispatch r.path h env w r
      else (httpError 403 "bad password", w)

/-! ## Windows OS DNS configurator (`net/dns/manager_windows.go`)

Host registry keys and the NRPT rule database become an explicit state
record.  Registry handles always open in the model (the Go code only fails
when a key cannot be opened), and the asynchronous `ipconfig` invocations and
WSL propagation are fire-and-forget side channels outside the modelled state,
which is exactly the "per-interface registry keys and split/NRPT rule set"
state the claims quantify over. -/

/-- A host IP address, abstracted to its family and its rendered string
(`netip.Addr.Is4` / `String`). -/
inductive IPAddr where
  | v4 (s : String)
  | v6 (s : String)
  deriving DecidableEq

/-- `ip.Is4()`. -/
def IPAddr.is4 : IPAddr → Bool
  | IPAddr.v4 _ => true
  | IPAddr.v6 _ => false

/-- `ip.String()`. -/
def IPAddr.str : IPAddr → String
  | IPAddr.v4 s => s
  | IPAddr.v6 s => s

/-- `dns.OSConfig`: the compiled, OS-facing DNS configuration.  FQDNs are
strings carrying their trailing dot. -/
structure OSConfig where
  Nameservers : List IPAddr := []
  SearchDomains : List String := []
  MatchDomains : List String := []
  deriving DecidableEq

/-- `fqdn.WithoutTrailingDot()`. -/
def withoutTrailingDot (s : String) : String :=
  if strHasPrefix (String.mk s.data.reverse) "." then s.dropRight 1 else s

/-- The per-interface registry values the manager touches under one of the
two `Tcpip…\Parameters\Interfaces\<guid>` bases; `none` means the value is
absent (deleted). -/
structure IfaceKeys where
  nameServer : Option String := none
  searchList : Option String := none
  enableMulticast : Option Nat := none
  disableDynamicUpdate : Option Nat := none
  deriving DecidableEq

/-- The host DNS state owned by the Windows manager: IPv4 and IPv6 interface
keys plus the Tailscale NRPT rule set (`some (servers, domains)` when rules
are installed, `none` when they have been deleted / never written). -/
structure WinState where
  v4 : IfaceKeys := {}
  v6 : IfaceKeys := {}
  nrptRules : Option (List String × List String) := none
  deriving DecidableEq

/-- `windowsManager.disableDynamicUpdates`: set `DisableDynamicUpdate = 1`
under both bases. -/
def disableDynamicUpdates (s : WinState) : WinState where
  v4 := { s.v4 with disableDynamicUpdate := some 1 }
  v6 := { s.v6 with disableDynamicUpdate := some 1 }
  nrptRules := s.nrptRules

/-- `windowsManager.setPrimaryDNS`: write or delete `NameServer` and
`SearchList` per family from the given resolvers and domains, and disable
LLMNR (`EnableMulticast = 0`) on both families. -/
def setPrimaryDNS (resolvers : List IPAddr) (domains : List String) (s : WinState) : WinState :=
  let ipsv4 := (resolvers.filter IPAddr.is4).map IPAddr.str
  let ipsv6 := (resolvers.filter fun ip => !ip.is4).map IPAddr.str
  let domStrs := domains.map withoutTrailingDot
  { v4 := { s.v4 with
      nameServer := if ipsv4.isEmpty then none else some (joinComma ipsv4)
      searchList := if domains.isEmpty then none else some (joinComma domStrs)
      enableMulticast := some 0 }
    v6 := { s.v6 with
      nameServer := if ipsv6.isEmpty then none else some (joinComma ipsv6)
      searchList := if domains.isEmpty then none else some (joinComma domStrs)
      enableMulticast := some 0 }
    nrptRules := s.nrptRules }

/-- `windowsManager.setSplitDNS`.  `hasNrpt` is whether `m.nrptDB` is
non-nil (Windows 10+).  With no resolvers the Tailscale NRPT rules are
deleted (`DelAllRuleKeys`); otherwise `WriteSplitDNSConfig` installs rules
for exactly the given servers and domains.  The Go nil-slice/empty-slice
distinction in the `nrptDB == nil` arm is immaterial for the calls `SetDNS`
makes, since `SetDNS` only reaches that arm with nil resolvers. -/
def setSplitDNS (hasNrpt : Bool) (resolvers : List IPAddr) (domains : List String)
    (s : WinState) : Option String × WinState :=
  if !hasNrpt then
    if resolvers.isEmpty then (none, s)
    else (some "Split DNS unsupported on this Windows version", s)
  else if resolvers.isEmpty then (none, { s with nrptRules := none })
  else (none, { s with nrptRules := some (resolvers.map IPAddr.str, domains) })

/-- `windowsManager.SetDNS`: disable dynamic updates, then either
(primary mode, no match domains) clear the split policy and write the
primary keys, or (split mode) fail on Windows 7, else write the NRPT rules
and clear the primary nameserver keys while still writing search domains.
The result pairs the final host state with the returned error, if any. -/
def SetDNS (hasNrpt : Bool) (cfg : OSConfig) (s : WinState) : WinState × Option String :=
  let s1 := disableDynamicUpdates s
  if cfg.MatchDomains.isEmpty then
    match setSplitDNS hasNrpt [] [] s1 with
    | (some e, s2) => (s2, some e)
    | (none, s2) => (setPrimaryDNS cfg.Nameservers cfg.SearchDomains s2, none)
  else if !hasNrpt then (s1, some "cannot set per-domain resolvers on Windows 7")
  else
    match setSplitDNS hasNrpt cfg.Nameservers cfg.MatchDomains s1 with
    | (some e, s2) => (s2, some e)
    | (none, s2) => (setPrimaryDNS [] cfg.SearchDomains s2, none)

/-! ## DNS policy compiler (spec section 4.G)

The compiler itself (`dns.Manager.Set` and its `compileConfig`) is not among
the visible sources — only its test (source part 004) and the OS
configurators are — so it is modelled from the spec below. -/

/-- `dnstype.Resolver`, abstracted to its rendered address (UDP `ip[:port]`
or DoH URL). -/
structure Resolver where
  Addr : String
  deriving DecidableEq

/-- `dns.Config`: the logical DNS policy supplied by the node (spec
section 3).  A route mapped to the empty resolver list is intercepted
("magic DNS"); FQDNs carry their trailing dot. -/
structure DNSPolicy where
  DefaultResolvers : List Resolver := []
  Routes : List (String × List Resolver) := []
  SearchDomains : List String := []
  Hosts : List (String × List IPAddr) := []

/-- `resolver.Config`: the in-daemon forwarder configuration (spec
section 3); the `"."` route is the default. -/
structure ResolverConfig where
  Routes : List (String × List Resolver) := []
  Hosts : List (String × List IPAddr) := []
  LocalDomains : List String := []
  deriving DecidableEq

/-- The magic DNS address the OS is pointed at when the in-daemon resolver
must see the queries. -/
def magicDNSIP : IPAddr := IPAddr.v4 "100.100.100.100"

/-- Insertion sort on strings, for the spec's `sort(union(...))` of match
domains. -/
def insertSorted (x : String) : List String → List String
  | [] => [x]
  | y :: ys => if x < y then x :: y :: ys else y :: insertSorted x ys

def sortStrings (l : List String) : List String :=
  l.foldr insertSorted []

/-- Order-preserving append of `b` to `a` dropping elements already in `a`
(spec section 4.G step 4 "deduped, order-preserving"). -/
def appendDedup (a b : List String) : List String :=
  a ++ b.filter fun d => !(a.contains d)

/-- Modelled from the spec: the DNS policy compiler of section 4.G
(`dns.Manager.Set` / `compileConfig`, whose source is not visible).  Inputs
are the logical policy, the base (pre-existing host) configuration and the
host's split capability; outputs are the OS-level config and the in-daemon
resolver config.  Where the section 4.G text is silent or conflicts with the
concrete scenarios of section 8, the scenarios win: a forwarded suffix also
forces the magic resolver in primary mode, and when the daemon is made
primary without default resolvers the base config's nameservers become the
`"."` route (section 8 scenarios `routes`, `routes-magic`). -/
def compileDNS (pol : DNSPolicy) (base : OSConfig) (splitCapable : Bool) :
    OSConfig × ResolverConfig :=
  let primary := !pol.DefaultResolvers.isEmpty
  let intercepted := (pol.Routes.filter fun p => p.2.isEmpty).map Prod.fst
  let forwarded := pol.Routes.filter fun p => !p.2.isEmpty
  let suffixes := intercepted ++ forwarded.map Prod.fst
  let splitMode := splitCapable && !suffixes.isEmpty && !primary
  if splitMode then
    ({ Nameservers := [magicDNSIP]
       SearchDomains := pol.SearchDomains
       MatchDomains := sortStrings (appendDedup [] suffixes) },
     { Routes := forwarded
       Hosts := pol.Hosts
       LocalDomains := intercepted })
  else
    ({ Nameservers := if !suffixes.isEmpty || primary then [magicDNSIP] else base.Nameservers
       SearchDomains := appendDedup pol.SearchDomains base.SearchDomains
       MatchDomains := [] },
     { Routes := forwarded ++
         (if primary then [(".", pol.DefaultResolvers)]
          else if !suffixes.isEmpty then [(".", base.Nameservers.map fun ip => Resolver.mk ip.str)]
          else [])
       Hosts := pol.Hosts
       LocalDomains := intercepted })

/-! ## Theorems

One theorem per claim of the frozen claim list, preceded by the auxiliary
notions the statements use. -/

/-- Whether the basic-auth gate of `ServeHTTP` lets the request through: no
password configured, or matching credentials presented. -/
def passGate (h : Handler) (r : Request) : Prop :=
  h.RequiredPassword = "" ∨ r.basicAuthPassword = some h.RequiredPassword

/-- The exactly-routed paths whose handlers gate on `PermitRead` (the
section 4.D read rows visible in the source). -/
def readGatedPaths : List String :=
  ["/localapi/v0/whois", "/localapi/v0/status", "/localapi/v0/check-ip-forwarding",
   "/localapi/v0/bugreport", "/localapi/v0/prefs", "/localapi/v0/file-targets"]

/-- The exactly-routed paths whose handlers gate on `PermitWrite`. -/
def writeGatedPaths : List String :=
  ["/localapi/v0/goroutines", "/localapi/v0/profile", "/localapi/v0/logout",
   "/localapi/v0/login-interactive", "/localapi/v0/check-prefs", "/localapi/v0/set-dns",
   "/localapi/v0/metrics", "/localapi/v0/debug", "/localapi/v0/id-token"]

theorem ServeHTTP_gate (h : Handler) (env : Env) (w : World) (r : Request)
    (hg : passGate h r) : ServeHTTP h env w r = dispatch r.path h env w r := by
  rcases hg with hg | hg
  · simp [ServeHTTP, hg]
  · by_cases hpw : h.RequiredPassword = ""
    · simp [ServeHTTP, hpw]
    · simp [ServeHTTP, hpw, hg]

theorem filePut_prefix_not_files (p : String)
    (hfp : strHasPrefix p "/localapi/v0/file-put/" = true) :
    strHasPrefix p "/localapi/v0/files/" = false := by
  by_contra hf
  rw [Bool.not_eq_false] at hf
  have h1 := of_decide_eq_true hf
  have h2 := of_decide_eq_true hfp
  rcases List.prefix_or_prefix_of_prefix h1 h2 with hc | hc
  · exact absurd hc (by decide)
  · exact absurd hc (by decide)

/-- C1: every Local API handler with a declared minimum capability rejects an
under-capable connection with 401/403 before its body runs.  When
`RequiredPassword` is configured, a request without basic-auth credentials is
answered 401 and one with a wrong password 403 before any routing; with the
password gate passed, a read-gated path under `PermitRead = false`, a
write-gated path (including the `/files/` and `/file-put/` prefix families)
under `PermitWrite = false`, and a `/prefs` PATCH under `PermitWrite = false`
are all answered 403 with no backend method called and the world
untouched. -/
theorem C1_capability_gate (h : Handler) (env : Env) (w : World) (r : Request) :
    (h.RequiredPassword ≠ "" → r.basicAuthPassword = none →
       ServeHTTP h env w r = (httpError 401 "auth required", w)) ∧
    (∀ p, h.RequiredPassword ≠ "" → r.basicAuthPassword = some p →
       p ≠ h.RequiredPassword →
       ServeHTTP h env w r = (httpError 403 "bad password", w)) ∧
    (passGate h r → r.path ∈ readGatedPaths → h.PermitRead = false →
       (ServeHTTP h env w r).1.status = 403 ∧ (ServeHTTP h env w r).1.calls = [] ∧
       (ServeHTTP h env w r).2 = w) ∧
    (passGate h r →
       (r.path ∈ writeGatedPaths ∨ strHasPrefix r.path "/localapi/v0/files/" = true ∨
         strHasPrefix r.path "/localapi/v0/file-put/" = true) →
       h.PermitWrite = false →
       (ServeHTTP h env w r).1.status = 403 ∧ (ServeHTTP h env w r).1.calls = [] ∧
       (ServeHTTP h env w r).2 = w) ∧
    (passGate h r → r.path = "/localapi/v0/prefs" → r.method = "PATCH" →
       h.PermitWrite = false →
       (ServeHTTP h env w r).1.status = 403 ∧ (ServeHTTP h env w r).1.calls = [] ∧
       (ServeHTTP h env w r).2 = w) := by
  refine ⟨?_, ?_, ?_, ?_, ?_⟩
  · intro hpw hba
    simp [ServeHTTP, hpw, hba]
  · intro p hpw hba hne
    simp [ServeHTTP, hpw, hba, hne]
  · intro hg hmem hread
    rw [ServeHTTP_gate h env w r hg]
    simp only [readGatedPaths, List.mem_cons, List.mem_singleton, List.not_mem_nil,
      or_false] at hmem
    rcases hmem with hp | hp | hp | hp | hp | hp <;> rw [hp] <;>
      simp +decide [dispatch, serveWhoIs, serveStatus, serveCheckIPForwarding,
        serveBugReport, servePrefs, serveFileTargets, hread, httpError]
  · intro hg hmem hw
    rw [ServeHTTP_gate h env w r hg]
    rcases hmem with hmem | hfil | hfp
    · simp only [writeGatedPaths, List.mem_cons, List.mem_singleton, List.not_mem_nil,
        or_false] at hmem
      rcases hmem with hp | hp | hp | hp | hp | hp | hp | hp | hp <;> rw [hp] <;>
        simp +decide [dispatch, serveGoroutines, serveProfile, serveLogout,
          serveLoginInteractive, serveCheckPrefs, serveSetDNS, serveMetrics,
          serveDebug, serveIDToken, hw, httpError]
    · simp [dispatch, hfil, serveFiles, hw, httpError]
    · have hnf := filePut_prefix_not_files r.path hfp
      simp [dispatch, hnf, hfp, serveFilePut, hw, httpError]
  · intro hg hp hm hw
    rw [ServeHTTP_gate h env w r hg, hp]
    by_cases hread : h.PermitRead
    · simp +decide [dispatch, servePrefs, hread, hm, hw, httpError]
    · simp +decide [dispatch, servePrefs, hread, httpError]

/-- Concrete instance of the C1 gate: a passwordless handler without read
permission answers 403 with no backend calls on GET /status, and a handler
with a configured password answers 401 to a request without credentials. -/
theorem C1_capability_gate_witness :
    ((ServeHTTP {} {} {} { path := "/localapi/v0/status" }).1.status = 403 ∧
      (ServeHTTP {} {} {} { path := "/localapi/v0/status" }).1.calls = [] ∧
      (ServeHTTP {} {} {} { path := "/localapi/v0/status" }).2 = {}) ∧
    ServeHTTP { RequiredPassword := "secret" } {} {} { path := "/localapi/v0/status" } =
      (httpError 401 "auth required", {}) := by
  constructor
  · exact (C1_capability_gate {} {} {} { path := "/localapi/v0/status" }).2.2.1
      (Or.inl rfl) (by decide) rfl
  · exact (C1_capability_gate { RequiredPassword := "secret" } {} {}
      { path := "/localapi/v0/status" }).1 (by decide) rfl

/-- Concrete input refuting C2 as stated: a two-entry upload whose second
entry has an unknown type. -/
def c2req : Request :=
  { path := "/localapi/v0/upload-client-metrics", method := "POST",
    bodyClientMetrics := some [⟨"foo", "counter", 1⟩, ⟨"bar", "bogus", 2⟩] }

/-- C2 counterexample: the claim says a 400 response leaves no metric of the
array created or modified, but on `[{foo,counter,1},{bar,bogus,2}]` the
handler answers 400 while the metric `foo` named by the first entry has been
created with value 1 — the registry of the returned world differs from the
initial (empty) one. -/
theorem C2_upload_not_atomic_counterexample :
    (serveUploadClientMetrics {} {} {} c2req).1.status = 400 ∧
    (serveUploadClientMetrics {} {} {} c2req).2.metrics.uploaded =
      [("foo", MKind.counter, 1)] ∧
    (serveUploadClientMetrics {} {} {} c2req).2.metrics ≠ ({} : World).metrics := by
  refine ⟨rfl, rfl, ?_⟩
  decide

/-- C2 (amended): POST /upload-client-metrics is sequential and fail-fast
rather than atomic.  When every entry of the array is acceptable in sequence,
all of them are registered/added and the handler answers 200; otherwise the
handler answers 400 at the first unacceptable entry (pre-published name
collision or unknown type), with exactly the entries before it applied and
the failing entry and all later ones unapplied. -/
theorem C2_upload_fail_fast (h : Handler) (env : Env) (w : World) (r : Request)
    (entries : List CMetricJSON)
    (hm : r.method = "POST") (hb : r.bodyClientMetrics = some entries) :
    (seqValid w.metrics entries = true ∧
       serveUploadClientMetrics h env w r =
         ({ status := 200, body := Body.jsonObj },
          { w with metrics := entries.foldl applyEntry w.metrics })) ∨
    (∃ pre bad rest, entries = pre ++ bad :: rest ∧
       seqValid w.metrics pre = true ∧
       validEntry (pre.foldl applyEntry w.metrics) bad = false ∧
       (serveUploadClientMetrics h env w r).1.status = 400 ∧
       (serveUploadClientMetrics h env w r).2 =
         { w with metrics := pre.foldl applyEntry w.metrics }) := by
  have hloop := uploadLoop_spec w.metrics entries
  rcases hloop with ⟨hsv, heq⟩ | ⟨pre, bad, rest, hsplit, hsv, hbad, h1, h2⟩
  · left
    refine ⟨hsv, ?_⟩
    simp [serveUploadClientMetrics, hm, hb, heq]
  · right
    refine ⟨pre, bad, rest, hsplit, hsv, hbad, ?_, ?_⟩ <;>
      rcases hq : uploadLoop w.metrics entries with ⟨o, st⟩ <;>
      rw [hq] at h1 h2 <;>
      cases o with
      | none => simp at h1
      | some e =>
        simp only at h2
        simp [serveUploadClientMetrics, hm, hb, hq, httpError, h2]

/-- Concrete instance of the amended C2: a fully valid single-entry upload is
applied and acknowledged with 200 — instantiating the fail-fast theorem at
that input. -/
theorem C2_upload_fail_fast_witness :
    (seqValid ({} : World).metrics [⟨"foo", "counter", 2⟩] = true ∧
       serveUploadClientMetrics {} {} {}
           { path := "/localapi/v0/upload-client-metrics", method := "POST",
             bodyClientMetrics := some [⟨"foo", "counter", 2⟩] } =
         ({ status := 200, body := Body.jsonObj },
          { ({} : World) with
              metrics := [(⟨"foo", "counter", 2⟩ : CMetricJSON)].foldl applyEntry
                ({} : World).metrics })) ∨
    (∃ pre bad rest,
       [(⟨"foo", "counter", 2⟩ : CMetricJSON)] = pre ++ bad :: rest ∧
       seqValid ({} : World).metrics pre = true ∧
       validEntry (pre.foldl applyEntry ({} : World).metrics) bad = false ∧
       (serveUploadClientMetrics {} {} {}
           { path := "/localapi/v0/upload-client-metrics", method := "POST",
             bodyClientMetrics := some [⟨"foo", "counter", 2⟩] }).1.status = 400 ∧
       (serveUploadClientMetrics {} {} {}
           { path := "/localapi/v0/upload-client-metrics", method := "POST",
             bodyClientMetrics := some [⟨"foo", "counter", 2⟩] }).2 =
         { ({} : World) with metrics := pre.foldl applyEntry ({} : World).metrics }) :=
  C2_upload_fail_fast {} {} {} _ [⟨"foo", "counter", 2⟩] rfl rfl

/-- Initial registry for the C3 counterexample: the name `m` was registered
through the upload channel as a counter with value 1. -/
def c3w : World := { metrics := ⟨[], [("m", MKind.counter, 1)]⟩ }

def c3req : Request :=
  { path := "/localapi/v0/upload-client-metrics", method := "POST",
    bodyClientMetrics := some [⟨"m", "gauge", 5⟩] }

/-- C3 counterexample: the claim says an entry whose name was previously
registered under a different kind fails and leaves the value unmodified, but
uploading `{m,gauge,5}` over the upload-registered counter `m = 1` succeeds
with 200 and bumps the counter to 6 — a silent add under the mismatched
type. -/
theorem C3_kind_mismatch_counterexample :
    (serveUploadClientMetrics {} {} c3w c3req).1.status = 200 ∧
    (serveUploadClientMetrics {} {} c3w c3req).2.metrics.uploaded =
      [("m", MKind.counter, 6)] := ⟨rfl, rfl⟩

/-- C3 (amended): only cross-channel collisions are rejected.  The head entry
of an upload whose name collides with a pre-published (code-created) metric
and is not upload-registered is answered 400 with the whole registry — in
particular the prior metric — unmodified, whatever its declared type; a head
entry whose name is already upload-registered is added to the existing metric
under its original kind, its declared type ignored. -/
theorem C3_channel_collisions (h : Handler) (env : Env) (w : World) (r : Request)
    (m : CMetricJSON) (rest : List CMetricJSON)
    (hm : r.method = "POST") (hb : r.bodyClientMetrics = some (m :: rest)) :
    ((w.metrics.uploaded.lookup m.name : Option (MKind × Int)) = none →
       (w.metrics.published.lookup m.name).isSome = true →
       serveUploadClientMetrics h env w r =
         (httpError 400 ("Already have a metric named " ++ m.name), w)) ∧
    (∀ k v, (w.metrics.uploaded.lookup m.name : Option (MKind × Int)) = some (k, v) →
       uploadLoop w.metrics (m :: rest) =
         uploadLoop { w.metrics with uploaded := addTo w.metrics.uploaded m.name m.value }
           rest) := by
  constructor
  · intro hup hpub
    have hl : uploadLoop w.metrics (m :: rest) =
        (some ("Already have a metric named " ++ m.name), w.metrics) := by
      conv_lhs => simp only [uploadLoop, hup]
      simp [hpub]
    simp [serveUploadClientMetrics, hm, hb, hl]
  · intro k v hup
    conv_lhs => simp only [uploadLoop, hup]

/-- Concrete instance of the amended C3: uploading over a code-published name
is rejected with 400 and the registry is returned unmodified. -/
theorem C3_channel_collisions_witness :
    serveUploadClientMetrics {} {} { metrics := ⟨[("pub", MKind.counter, 7)], []⟩ }
        { path := "/localapi/v0/upload-client-metrics", method := "POST",
          bodyClientMetrics := some [⟨"pub", "counter", 3⟩] } =
      (httpError 400 "Already have a metric named pub",
       { metrics := ⟨[("pub", MKind.counter, 7)], []⟩ }) :=
  (C3_channel_collisions {} {} { metrics := ⟨[("pub", MKind.counter, 7)], []⟩ }
      { path := "/localapi/v0/upload-client-metrics", method := "POST",
        bodyClientMetrics := some [⟨"pub", "counter", 3⟩] }
      ⟨"pub", "counter", 3⟩ [] rfl rfl).1 rfl rfl

/-- C4: a PATCH /prefs that does not succeed leaves the backend prefs
bit-identical (in fact the whole world unchanged); a backend validation
failure is answered 400 with a JSON error body; a 200 response carries the
new full preferences, which are exactly the masked patch applied to the old
ones. -/
theorem C4_prefs_patch_atomic (h : Handler) (env : Env) (w : World) (r : Request)
    (hm : r.method = "PATCH") :
    (¬(200 ≤ (servePrefs h env w r).1.status ∧ (servePrefs h env w r).1.status < 300) →
       (servePrefs h env w r).2 = w) ∧
    (∀ mp e, h.PermitRead = true → h.PermitWrite = true →
       r.bodyMaskedPrefs = some mp → editPrefs env w.prefs mp = Except.error e →
       servePrefs h env w r =
         ({ status := 400, body := Body.jsonError e, calls := [Call.editPrefsCall] }, w)) ∧
    (∀ mp, h.PermitRead = true → h.PermitWrite = true →
       r.bodyMaskedPrefs = some mp → editPrefs env w.prefs mp = Except.ok (applyMask w.prefs mp) →
       servePrefs h env w r =
         ({ status := 200, body := Body.prefsJSON (applyMask w.prefs mp),
            calls := [Call.editPrefsCall] },
          { w with prefs := applyMask w.prefs mp })) ∧
    ((servePrefs h env w r).1.status = 200 →
       (servePrefs h env w r).1.body = Body.prefsJSON (servePrefs h env w r).2.prefs) := by
  refine ⟨?_, ?_, ?_, ?_⟩
  · intro hnot
    by_cases hread : h.PermitRead
    · by_cases hwr : h.PermitWrite
      · cases hb : r.bodyMaskedPrefs with
        | none => simp [servePrefs, hm, hread, hwr, hb, httpError]
        | some mp =>
          cases he : editPrefs env w.prefs mp with
          | error e => simp [servePrefs, hm, hread, hwr, hb, he]
          | ok p =>
            exfalso
            apply hnot
            simp [servePrefs, hm, hread, hwr, hb, he]
      · simp [servePrefs, hm, hread, hwr, httpError]
    · simp [servePrefs, hm, hread, httpError]
  · intro mp e hread hwr hb he
    simp [servePrefs, hm, hread, hwr, hb, he]
  · intro mp hread hwr hb he
    simp [servePrefs, hm, hread, hwr, hb, he]
  · intro h200
    by_cases hread : h.PermitRead
    · by_cases hwr : h.PermitWrite
      · cases hb : r.bodyMaskedPrefs with
        | none => simp [servePrefs, hm, hread, hwr, hb, httpError] at h200
        | some mp =>
          cases he : editPrefs env w.prefs mp with
          | error e => simp [servePrefs, hm, hread, hwr, hb, he] at h200
          | ok p => simp [servePrefs, hm, hread, hwr, hb, he]
      · simp [servePrefs, hm, hread, hwr, httpError] at h200
    · simp [servePrefs, hm, hread, httpError] at h200

/-- Concrete instance of C4: a patch rejected by validation is answered 400
with the JSON error body and leaves the prefs untouched. -/
theorem C4_prefs_patch_atomic_witness :
    (servePrefs { PermitRead := true, PermitWrite := true }
         { prefsValid := fun p => !p.ShieldsUp } { prefs := {} }
         { path := "/localapi/v0/prefs", method := "PATCH",
           bodyMaskedPrefs := some { ShieldsUp := some true } }).2 =
       { prefs := {} } ∧
    servePrefs { PermitRead := true, PermitWrite := true }
        { prefsValid := fun p => !p.ShieldsUp } { prefs := {} }
        { path := "/localapi/v0/prefs", method := "PATCH",
          bodyMaskedPrefs := some { ShieldsUp := some true } } =
      ({ status := 400, body := Body.jsonError "invalid prefs",
         calls := [Call.editPrefsCall] }, { prefs := {} }) := by
  have hth := C4_prefs_patch_atomic { PermitRead := true, PermitWrite := true }
    { prefsValid := fun p => !p.ShieldsUp } { prefs := {} }
    { path := "/localapi/v0/prefs", method := "PATCH",
      bodyMaskedPrefs := some { ShieldsUp := some true } } rfl
  refine ⟨hth.1 (by decide), hth.2.1 { ShieldsUp := some true } "invalid prefs" rfl rfl rfl rfl⟩

/-- C7: every POST /dial failure before the hijack yields a conventional
status and no byte pipe.  A request whose Connection header does not carry
the `upgrade` token or whose Upgrade header differs from the fixed `ts-dial`
constant is answered 400 with no dial attempted; a request missing Dial-Host
or Dial-Port is answered 400 with no dial attempted; a backend dial failure
is answered 502 without a hijack; only after a successful dial does the
handler answer 101 with the upgrade headers and hijack the connection into a
pipe. -/
theorem C7_dial_failure_modes (h : Handler) (env : Env) (w : World) (r : Request)
    (hm : r.method = "POST") :
    (¬(strContains (headerGet r "Connection") "upgrade" = true ∧
         headerGet r "Upgrade" = "ts-dial") →
       serveDial h env w r = (httpError 400 "bad ts-dial upgrade", w)) ∧
    (strContains (headerGet r "Connection") "upgrade" = true →
       headerGet r "Upgrade" = "ts-dial" →
       (headerGet r "Dial-Host" = "" ∨ headerGet r "Dial-Port" = "") →
       serveDial h env w r = (httpError 400 "missing Dial-Host or Dial-Port header", w)) ∧
    (∀ e, strContains (headerGet r "Connection") "upgrade" = true →
       headerGet r "Upgrade" = "ts-dial" →
       headerGet r "Dial-Host" ≠ "" → headerGet r "Dial-Port" ≠ "" →
       env.http1 = true →
       env.dialErr (joinHostPort (headerGet r "Dial-Host") (headerGet r "Dial-Port")) = some e →
       serveDial h env w r =
         ({ httpError 502 ("dial failure: " ++ e) with
             calls := [Call.userDial (joinHostPort (headerGet r "Dial-Host")
               (headerGet r "Dial-Port"))] }, w)) ∧
    (strContains (headerGet r "Connection") "upgrade" = true →
       headerGet r "Upgrade" = "ts-dial" →
       headerGet r "Dial-Host" ≠ "" → headerGet r "Dial-Port" ≠ "" →
       env.http1 = true →
       env.dialErr (joinHostPort (headerGet r "Dial-Host") (headerGet r "Dial-Port")) = none →
       serveDial h env w r =
         ({ status := 101,
            calls := [Call.userDial (joinHostPort (headerGet r "Dial-Host")
              (headerGet r "Dial-Port"))],
            hijacked := true, upgradeHeaders := true }, w)) := by
  refine ⟨?_, ?_, ?_, ?_⟩
  · intro hbad
    rcases Decidable.not_and_iff_or_not.mp hbad with hc | hu
    · simp [serveDial, hm, hc]
    · simp [serveDial, hm, hu]
  · intro hc hu hmiss
    simp [serveDial, hm, hc, hu, hmiss]
  · intro e hc hu hhost hport h1 hd
    simp [serveDial, hm, hc, hu, hhost, hport, h1, hd]
  · intro hc hu hhost hport h1 hd
    simp [serveDial, hm, hc, hu, hhost, hport, h1, hd]

/-- Concrete instance of C7: a well-formed upgrade request whose backend dial
fails is answered 502 without a hijack, by the failure-mode theorem. -/
theorem C7_dial_failure_modes_witness :
    serveDial {} { dialErr := fun _ => some "refused" } {}
        { path := "/localapi/v0/dial", method := "POST",
          headers := [("Connection", "upgrade"), ("Upgrade", "ts-dial"),
            ("Dial-Host", "peer"), ("Dial-Port", "22")] } =
      ({ httpError 502 "dial failure: refused" with calls := [Call.userDial "peer:22"] },
       {}) :=
  (C7_dial_failure_modes {} { dialErr := fun _ => some "refused" } {}
      { path := "/localapi/v0/dial", method := "POST",
        headers := [("Connection", "upgrade"), ("Upgrade", "ts-dial"),
          ("Dial-Host", "peer"), ("Dial-Port", "22")] } rfl).2.2.1
    "refused" (by decide) rfl (by decide) (by decide) rfl rfl

/-- Handler and environment for the C8 counterexample: log id `abc`, zeroed
randomness, default clock. -/
def c8h : Handler := { PermitRead := true, backendLogID := "abc" }

def c8req : Request := { path := "/localapi/v0/bugreport" }

/-- C8 counterexample: the claim fixes the random suffix at 8 hex digits,
but `randHex(8)` hex-encodes 8 random bytes, so the marker's suffix has 16
hex digits: at a concrete input the body is the 16-digit-suffix marker and
no 8-character suffix can produce it. -/
theorem C8_hex_length_counterexample :
    (serveBugReport c8h {} {} c8req).1.body =
      Body.text "BUG-abc-20220101000000Z-0000000000000000\n" ∧
    ¬ ∃ hex8 : String, hex8.length = 8 ∧
        (serveBugReport c8h {} {} c8req).1.body =
          Body.text ("BUG-abc-20220101000000Z-" ++ hex8 ++ "\n") := by
  refine ⟨rfl, ?_⟩
  rintro ⟨hex8, hlen, heq⟩
  have hs : "BUG-abc-20220101000000Z-0000000000000000\n" =
      "BUG-abc-20220101000000Z-" ++ hex8 ++ "\n" := by
    have h0 : (serveBugReport c8h {} {} c8req).1.body =
        Body.text "BUG-abc-20220101000000Z-0000000000000000\n" := rfl
    rw [h0] at heq
    exact Body.text.inj heq
  have hlens := congrArg String.length hs
  rw [String.length_append, String.length_append, hlen] at hlens
  exact absurd hlens (by decide)

/-- C8 (amended): /bugreport from a read-capable connection logs and returns
as the plain-text body (with a trailing newline) the marker
`BUG-<logID>-<UTC>-<hex16>`, where `<UTC>` is the current UTC time in the
`20060102150405Z` layout and `<hex16>` is a 16-hex-digit random suffix
(`randHex(8)` hex-encodes 8 random bytes); a non-empty note parameter is
additionally logged. -/
theorem C8_bugreport_marker (h : Handler) (env : Env) (w : World) (r : Request)
    (hread : h.PermitRead = true) :
    (serveBugReport h env w r).1.status = 200 ∧
    (serveBugReport h env w r).1.body = Body.text (bugMarker h env ++ "\n") ∧
    bugMarker h env =
      "BUG-" ++ h.backendLogID ++ "-" ++ formatBugTime env.now ++ "-" ++ randHexN env 8 ∧
    (randHexN env 8).length = 16 ∧
    (∀ c ∈ (randHexN env 8).data, c ∈ "0123456789abcdef".data) ∧
    (serveBugReport h env w r).1.logs =
      ("user bugreport: " ++ bugMarker h env) ::
        (if (formValue r "note").length > 0
         then ["user bugreport note: " ++ formValue r "note"] else []) ∧
    (serveBugReport h env w r).2 = w := by
  refine ⟨?_, ?_, rfl, ?_, ?_, ?_, ?_⟩
  · simp [serveBugReport, hread]
  · simp [serveBugReport, hread]
  · simp [randHexN, List.range_succ, byteHex, String.join, String.length_append,
      String.length_mk]
  · intro c hc
    simp only [randHexN, List.range_succ, List.range_zero, List.nil_append,
      List.map_append, List.map_cons, List.map_nil, List.cons_append] at hc
    have hbyte : ∀ b : Nat, ∀ c ∈ (byteHex b).data, c ∈ "0123456789abcdef".data := by
      intro b c hcb
      have hmem : c = hexDigitChar (b / 16 % 16) ∨ c = hexDigitChar (b % 16) := by
        simpa [byteHex] using hcb
      have hdig : ∀ n : Nat, n < 16 → hexDigitChar n ∈ "0123456789abcdef".data := by
        intro n hn
        interval_cases n <;> decide
      rcases hmem with rfl | rfl
      · exact hdig _ (Nat.mod_lt _ (by norm_num))
      · exact hdig _ (Nat.mod_lt _ (by norm_num))
    simp only [String.join, List.foldl_cons, List.foldl_nil] at hc
    simp only [String.data_append, List.mem_append] at hc
    rcases hc with ((((((((hc | hc) | hc) | hc) | hc) | hc) | hc) | hc) | hc)
    all_goals first
      | exact hbyte _ _ hc
      | simp at hc
  · simp [serveBugReport, hread]
  · simp [serveBugReport, hread]

/-- Concrete instance of the amended C8: with zeroed randomness, log id
`abc` and the default clock, the body is the 16-digit-suffix marker. -/
theorem C8_bugreport_marker_witness :
    (serveBugReport c8h {} {} c8req).1.body =
      Body.text (bugMarker c8h {} ++ "\n") ∧ (randHexN ({} : Env) 8).length = 16 :=
  ⟨(C8_bugreport_marker c8h {} {} c8req rfl).2.1,
   (C8_bugreport_marker c8h {} {} c8req rfl).2.2.2.1⟩

/-- C10: for a POST /ping whose `ip` parameter is non-empty and parses and
whose `type` parameter is empty, the "missing type" 400 branch is
unreachable (its guard re-tests the already-non-empty `ip` string): the
backend `Ping` is invoked with the empty ping type and the response is never
a 400 rejection. -/
theorem C10_ping_type_unchecked (h : Handler) (env : Env) (w : World) (r : Request)
    (hm : r.method = "POST") (hip : formValue r "ip" ≠ "")
    (hvalid : env.isValidAddr (formValue r "ip") = true)
    (hty : formValue r "type" = "") :
    (servePing h env w r).1.calls = [Call.ping (formValue r "ip") ""] ∧
    (servePing h env w r).1.status ≠ 400 := by
  cases hres : env.pingErr (formValue r "ip") (formValue r "type") with
  | none =>
    rw [hty] at hres
    constructor <;> simp [servePing, hm, hip, hvalid, hty, hres]
  | some e =>
    rw [hty] at hres
    constructor <;> simp [servePing, hm, hip, hvalid, hty, hres]

/-- The concrete C10 request: POST /ping with `ip=1.2.3.4` and no `type`. -/
def c10req : Request :=
  { path := "/localapi/v0/ping", method := "POST", params := [("ip", "1.2.3.4")] }

/-- Concrete instance of C10: `ip=1.2.3.4` with an empty `type` reaches the
backend ping with the empty ping type. -/
theorem C10_ping_type_unchecked_witness :
    (servePing {} {} {} c10req).1.calls = [Call.ping "1.2.3.4" ""] ∧
    (servePing {} {} {} c10req).1.status ≠ 400 :=
  C10_ping_type_unchecked {} {} {} c10req rfl (by decide) rfl rfl

/-- A host state carrying pre-existing Tailscale NRPT rules, for the C5
counterexample. -/
def c5s : WinState := { nrptRules := some (["9.9.9.9"], ["old.com."]) }

/-- A split-mode config with no nameservers, for the C5 counterexample. -/
def c5cfg : OSConfig := { Nameservers := [], MatchDomains := ["corp.com."] }

/-- C5 counterexample: the claim says that with split support and non-empty
`MatchDomains` NRPT rules covering exactly those suffixes are written, but
with an empty `Nameservers` list `setSplitDNS` deletes all Tailscale NRPT
rules instead: the call succeeds and leaves no rules at all. -/
theorem C5_empty_nameservers_counterexample :
    (SetDNS true c5cfg c5s).2 = none ∧
    (SetDNS true c5cfg c5s).1.nrptRules = none ∧
    (SetDNS true c5cfg c5s).1.nrptRules ≠
      some (c5cfg.Nameservers.map IPAddr.str, c5cfg.MatchDomains) := by
  refine ⟨rfl, rfl, ?_⟩
  decide

/-- C5 (amended): `windowsManager.SetDNS` behaves per mode, provided that in
split mode the nameserver list is non-empty (with an empty list the Tailscale
NRPT rules are deleted instead of written, see the counterexample).  With
empty `MatchDomains` the Tailscale split rules are removed (a no-op host
without an NRPT database carries none, which is the reachability hypothesis)
and the per-interface `NameServer`/`SearchList` keys are written from the
config, each key deleted when its list is empty.  With non-empty
`MatchDomains` on a split-capable host and non-empty nameservers, NRPT rules
for exactly those servers and suffixes are installed, both `NameServer` keys
are cleared and the search domains are still written.  With non-empty
`MatchDomains` on a host without split support the call fails with the
split-unsupported error, having performed no primary-key or split-policy
write (only the best-effort dynamic-updates disable). -/
theorem C5_setdns_modes (hasNrpt : Bool) (cfg : OSConfig) (s : WinState)
    (hinv : hasNrpt = false → s.nrptRules = none) :
    (cfg.MatchDomains.isEmpty = true →
       (SetDNS hasNrpt cfg s).2 = none ∧
       (SetDNS hasNrpt cfg s).1.nrptRules = none ∧
       (SetDNS hasNrpt cfg s).1.v4.nameServer =
         (if ((cfg.Nameservers.filter IPAddr.is4).map IPAddr.str).isEmpty then none
          else some (joinComma ((cfg.Nameservers.filter IPAddr.is4).map IPAddr.str))) ∧
       (SetDNS hasNrpt cfg s).1.v6.nameServer =
         (if ((cfg.Nameservers.filter fun ip => !ip.is4).map IPAddr.str).isEmpty then none
          else some (joinComma ((cfg.Nameservers.filter fun ip => !ip.is4).map IPAddr.str))) ∧
       (SetDNS hasNrpt cfg s).1.v4.searchList =
         (if cfg.SearchDomains.isEmpty then none
          else some (joinComma (cfg.SearchDomains.map withoutTrailingDot))) ∧
       (SetDNS hasNrpt cfg s).1.v6.searchList =
         (if cfg.SearchDomains.isEmpty then none
          else some (joinComma (cfg.SearchDomains.map withoutTrailingDot)))) ∧
    (cfg.MatchDomains.isEmpty = false → hasNrpt = true →
     cfg.Nameservers.isEmpty = false →
       (SetDNS hasNrpt cfg s).2 = none ∧
       (SetDNS hasNrpt cfg s).1.nrptRules =
         some (cfg.Nameservers.map IPAddr.str, cfg.MatchDomains) ∧
       (SetDNS hasNrpt cfg s).1.v4.nameServer = none ∧
       (SetDNS hasNrpt cfg s).1.v6.nameServer = none ∧
       (SetDNS hasNrpt cfg s).1.v4.searchList =
         (if cfg.SearchDomains.isEmpty then none
          else some (joinComma (cfg.SearchDomains.map withoutTrailingDot))) ∧
       (SetDNS hasNrpt cfg s).1.v6.searchList =
         (if cfg.SearchDomains.isEmpty then none
          else some (joinComma (cfg.SearchDomains.map withoutTrailingDot)))) ∧
    (cfg.MatchDomains.isEmpty = false → hasNrpt = false →
       (SetDNS hasNrpt cfg s).2 = some "cannot set per-domain resolvers on Windows 7" ∧
       (SetDNS hasNrpt cfg s).1 = disableDynamicUpdates s) := by
  refine ⟨?_, ?_, ?_⟩
  · intro hmd
    cases hn : hasNrpt with
    | true =>
      simp [SetDNS, setSplitDNS, setPrimaryDNS, disableDynamicUpdates, hmd]
    | false =>
      simp [SetDNS, setSplitDNS, setPrimaryDNS, disableDynamicUpdates, hmd, hinv hn]
  · intro hmd hn hns
    subst hn
    simp [SetDNS, setSplitDNS, setPrimaryDNS, disableDynamicUpdates, hmd, hns]
  · intro hmd hn
    subst hn
    simp [SetDNS, setSplitDNS, setPrimaryDNS, disableDynamicUpdates, hmd]

/-- The concrete split-mode config for the C5 witness. -/
def c5wcfg : OSConfig :=
  { Nameservers := [IPAddr.v4 "1.1.1.1"], SearchDomains := ["a.com."]
    MatchDomains := ["corp.com."] }

/-- Concrete instance of the amended C5: a split-capable host given
nameserver 1.1.1.1 and match domain corp.com installs exactly that NRPT rule,
clears both NameServer keys and writes the search list. -/
theorem C5_setdns_modes_witness :
    (SetDNS true c5wcfg {}).2 = none ∧
    (SetDNS true c5wcfg {}).1.nrptRules = some (["1.1.1.1"], ["corp.com."]) ∧
    (SetDNS true c5wcfg {}).1.v4.nameServer = none ∧
    (SetDNS true c5wcfg {}).1.v4.searchList = some "a.com" := by
  have hth := (C5_setdns_modes true c5wcfg {} (by decide)).2.1 rfl rfl rfl
  exact ⟨hth.1, hth.2.1, hth.2.2.1, by rw [hth.2.2.2.2.1]; rfl⟩

/-- C9: `SetDNS` on the Windows OS configurator is idempotent — a second call
with the same config leaves the host DNS state (per-interface registry keys
and NRPT rule set) and the returned error exactly as after the first call. -/
theorem C9_setdns_idempotent (hasNrpt : Bool) (cfg : OSConfig) (s : WinState) :
    SetDNS hasNrpt cfg (SetDNS hasNrpt cfg s).1 = SetDNS hasNrpt cfg s := by
  by_cases h1 : cfg.MatchDomains.isEmpty <;>
  by_cases h2 : hasNrpt = true <;>
  by_cases h3 : (((cfg.Nameservers.filter IPAddr.is4).map IPAddr.str)).isEmpty <;>
  by_cases h4 : (((cfg.Nameservers.filter fun ip => !ip.is4).map IPAddr.str)).isEmpty <;>
  by_cases h5 : cfg.SearchDomains.isEmpty <;>
  by_cases h6 : cfg.Nameservers.isEmpty <;>
  simp [SetDNS, setSplitDNS, setPrimaryDNS, disableDynamicUpdates, h1, h2, h3, h4, h5, h6]

/-- The routes-magic policy of C6: forwarded corp.com, intercepted ts.com,
static hosts and two search domains. -/
def c6pol : DNSPolicy :=
  { Routes := [("corp.com.", [Resolver.mk "2.2.2.2"]), ("ts.com.", [])]
    SearchDomains := ["tailscale.com.", "universe.tf."]
    Hosts := [("dave.ts.com.", [IPAddr.v4 "1.2.3.4"]),
      ("bradfitz.ts.com.", [IPAddr.v4 "2.3.4.5"])] }

/-- The base host config of C6: nameserver 8.8.8.8 and search domain
coffee.shop. -/
def c6base : OSConfig :=
  { Nameservers := [IPAddr.v4 "8.8.8.8"], SearchDomains := ["coffee.shop."] }

/-- C6: on the routes-magic scenario — routes `corp.com → 2.2.2.2`,
`ts.com → (intercepted)`, hosts, search domains, base
`{8.8.8.8, coffee.shop}`, split unsupported — the compiler emits the magic
nameserver with the policy search domains followed by the base one, and an
in-daemon resolver config routing corp.com to 2.2.2.2 and `"."` to 8.8.8.8,
carrying the policy hosts and ts.com as local domain. -/
theorem C6_routes_magic_scenario :
    compileDNS c6pol c6base false =
      ({ Nameservers := [magicDNSIP]
         SearchDomains := ["tailscale.com.", "universe.tf.", "coffee.shop."]
         MatchDomains := [] },
       { Routes := [("corp.com.", [Resolver.mk "2.2.2.2"]), (".", [Resolver.mk "8.8.8.8"])]
         Hosts := [("dave.ts.com.", [IPAddr.v4 "1.2.3.4"]),
           ("bradfitz.ts.com.", [IPAddr.v4 "2.3.4.5"])]
         LocalDomains := ["ts.com."] }) := rfl

end TS
